import Mathlib

/-!
Shallow embedding of the Klarna payment-connector adapter
(`crates/router/src/connector/klarna/transformers.rs`) and proofs of its
specified transformation contracts.

Types declared inside the repository's slice are translated field-for-field
from the source.  Types that the slice only consumes (the canonical router
data model, the credential union, the canonical attempt-status enum) are
declared outside the slice; they are modelled from the specification's data
model section and from how the slice uses them, and each such declaration
says so in its doc comment.
-/

namespace Klarna

/-- Modelled from the spec: the canonical `AttemptStatus` enum ("canonical
enum describing where a payment attempt stands (e.g., Authorizing,
Charged)").  Declared in `storage::enums`, outside the repository slice; the
variants listed here are the ones the spec names plus representative
non-success states. -/
inductive AttemptStatus where
  | Started
  | Authorizing
  | Authorized
  | Charged
  | Pending
  | Failure
  deriving DecidableEq, Repr

/-- Modelled from the spec: which canonical attempt statuses count as a
"success state" in the sense of section 4.6 ("never a success state") — the
states where the payment has been captured or authorized. -/
def AttemptStatus.isSuccess : AttemptStatus → Bool
  | .Charged => true
  | .Authorized => true
  | _ => false

/-- Modelled from the spec: the currency enum of the canonical model
(declared in `storage::enums`, outside the slice).  Only its identity
matters to the adapter, which copies it verbatim. -/
inductive Currency where
  | USD
  | EUR
  | GBP
  deriving DecidableEq, Repr

/-- `KlarnaFraudStatus` (transformers.rs lines 216-222): the gateway's
fraud-status vocabulary, with `Pending` marked as the `#[default]`
variant. -/
inductive KlarnaFraudStatus where
  | Accepted
  | Pending
  deriving DecidableEq, Repr

/-- The `#[default]` attribute on `KlarnaFraudStatus::Pending`. -/
def KlarnaFraudStatus.default : KlarnaFraudStatus := .Pending

/-- `impl From<KlarnaFraudStatus> for enums::AttemptStatus`
(transformers.rs lines 224-231). -/
def KlarnaFraudStatus.toAttemptStatus : KlarnaFraudStatus → AttemptStatus
  | .Accepted => .Charged
  | .Pending => .Authorizing

/-- The adapter's error cases from `errors::ConnectorError` (declared
outside the slice; the two constructors below are the ones the slice
raises, as the spec's error taxonomy in section 7 lists them). -/
inductive ConnectorError where
  | MissingRequiredField (field_name : String)
  | FailedToObtainAuthType
  deriving DecidableEq, Repr

/-- Modelled from the spec: one canonical order line item
(`api_models::payments::OrderDetailsWithAmount`, outside the slice):
"product name, quantity ≥ 1, unit amount".  `quantity` is a `u16` in the
source (`i64::from(data.quantity)`), `amount` an `i64` in minor units. -/
structure OrderDetailsWithAmount where
  product_name : String
  quantity : Nat
  amount : Int
  deriving DecidableEq, Repr

/-- `OrderLines` (transformers.rs lines 182-188): the wire shape of one
order line. -/
structure OrderLines where
  name : String
  quantity : Nat
  unit_price : Int
  total_amount : Int
  deriving DecidableEq, Repr

/-- `KlarnaSessionIntent` (transformers.rs lines 190-197). -/
inductive KlarnaSessionIntent where
  | Buy
  | Tokenize
  | BuyAndTokenize
  deriving DecidableEq, Repr

/-- Modelled from the spec: the credential tagged union
(`types::ConnectorAuthType`, outside the slice): "a tagged union of
credential shapes (e.g., header-key, body-key, multi-key)".  `Secret` is
modelled as the underlying string. -/
inductive ConnectorAuthType where
  | HeaderKey (api_key : String)
  | BodyKey (api_key : String) (key1 : String)
  | SignatureKey (api_key : String) (key1 : String) (api_secret : String)
  | MultiAuthKey (api_key : String) (key1 : String) (api_secret : String) (key2 : String)
  | NoKey
  deriving DecidableEq, Repr

/-- `KlarnaAuthType` (transformers.rs lines 199-201). -/
structure KlarnaAuthType where
  basic_token : String
  deriving DecidableEq, Repr

/-- `impl TryFrom<&types::ConnectorAuthType> for KlarnaAuthType`
(transformers.rs lines 203-214). -/
def KlarnaAuthType.tryFrom : ConnectorAuthType → Except ConnectorError KlarnaAuthType
  | .HeaderKey api_key => .ok { basic_token := api_key }
  | _ => .error .FailedToObtainAuthType

/-- Modelled from the spec: the canonical error value held in the response
slot of the router data before/after a failed call (`types::ErrorResponse`,
outside the slice): "a structured canonical error carrying the original
code/message(s)". -/
structure ErrorResponse where
  code : String
  message : String
  deriving DecidableEq, Repr

/-- `types::ResponseId` (outside the slice); the adapter only builds the
`ConnectorTransactionId` constructor. -/
inductive ResponseId where
  | ConnectorTransactionId (id : String)
  | NoResponseId
  deriving DecidableEq, Repr

/-- `api_models::payments::KlarnaSessionTokenResponse` (outside the slice):
the canonical Klarna session-token payload the adapter fills in. -/
structure KlarnaSessionTokenResponse where
  session_token : String
  session_id : String
  deriving DecidableEq, Repr

/-- Modelled from the spec: `types::api::SessionToken` (outside the slice),
"the canonical session-token variant tagged for this gateway" — a tagged
union with one variant per gateway; only the Klarna tag is built here. -/
inductive SessionToken where
  | Klarna (tok : KlarnaSessionTokenResponse)
  | NoSessionTokenReceived
  deriving DecidableEq, Repr

/-- `types::PaymentsResponseData` (outside the slice); the two variants the
adapter constructs, with the optional metadata fields the source sets.
Redirection/mandate/metadata payloads are opaque to this adapter and are
modelled as strings. -/
inductive PaymentsResponseData where
  | TransactionResponse
      (resource_id : ResponseId)
      (redirection_data : Option String)
      (mandate_reference : Option String)
      (connector_metadata : Option String)
      (network_txn_id : Option String)
      (connector_response_reference_id : Option String)
  | SessionResponse (session_token : SessionToken)
  deriving DecidableEq, Repr

/-- Modelled from the spec: the canonical session request payload
(`types::PaymentsSessionData`, outside the slice) — the fields the adapter
reads: amount (integer minor units), currency, optional order line
items. -/
structure PaymentsSessionData where
  amount : Int
  currency : Currency
  order_details : Option (List OrderDetailsWithAmount)
  deriving DecidableEq, Repr

/-- Modelled from the spec: the canonical authorization request payload
(`types::PaymentsAuthorizeData`, outside the slice) — the fields the
adapter reads. -/
structure PaymentsAuthorizeData where
  amount : Int
  currency : Currency
  order_details : Option (List OrderDetailsWithAmount)
  deriving DecidableEq, Repr

/-- Modelled from the spec: `types::PaymentsSessionRouterData` (outside the
slice) — the canonical request context: platform identifiers and reference
id, current attempt status, the request payload, and the response slot
(success-or-typed-error). -/
structure PaymentsSessionRouterData where
  payment_id : String
  attempt_id : String
  connector_request_reference_id : String
  status : AttemptStatus
  request : PaymentsSessionData
  response : Except ErrorResponse PaymentsResponseData
  deriving Repr

/-- Modelled from the spec: `types::PaymentsAuthorizeRouterData` (outside
the slice), same shape over the authorization payload. -/
structure PaymentsAuthorizeRouterData where
  payment_id : String
  attempt_id : String
  connector_request_reference_id : String
  status : AttemptStatus
  request : PaymentsAuthorizeData
  response : Except ErrorResponse PaymentsResponseData
  deriving Repr

/-- `KlarnaRouterData<T>` (transformers.rs lines 11-16): the normalizer
wrapper pairing the amount and reference id with the embedded canonical
router data. -/
structure KlarnaRouterData (T : Type) where
  amount : Int
  connector_request_reference_id : String
  router_data : T
  deriving DecidableEq, Repr

/-- `types::api::CurrencyUnit` (outside the slice): whether a gateway takes
amounts in whole (base) or minor units. -/
inductive CurrencyUnit where
  | Base
  | Minor
  deriving DecidableEq, Repr

/-- Modelled from the spec (section 4.1 Normalizer): "given (currency-unit
convention, currency, integer amount, canonical router data, reference id),
produce a value pairing the amount/currency/reference with the embedded
canonical data ... No failure path in the base case."  The source impl
(transformers.rs lines 18-44) is the subject of a code-bug finding: its
`try_from` pattern binds only four of the five tuple components, leaving
`connector_request_reference_id` unbound in the struct literal it builds,
so the source text does not express the pairing; this definition follows
the spec wording, binding the fifth component to the reference field. -/
def KlarnaRouterData.tryFrom {T : Type}
    (_currency_unit : CurrencyUnit) (_currency : Currency) (amount : Int)
    (router_data : T) (connector_request_reference_id : String) :
    Except ConnectorError (KlarnaRouterData T) :=
  .ok { amount := amount
        router_data := router_data
        connector_request_reference_id := connector_request_reference_id }

/-- `KlarnaPaymentsRequest` (transformers.rs lines 46-53). -/
structure KlarnaPaymentsRequest where
  order_lines : List OrderLines
  order_amount : Int
  purchase_country : String
  purchase_currency : Currency
  connector_request_reference_id : String
  deriving DecidableEq, Repr

/-- `KlarnaPaymentsResponse` (transformers.rs lines 55-60). -/
structure KlarnaPaymentsResponse where
  order_id : String
  fraud_status : KlarnaFraudStatus
  connector_request_reference_id : String
  deriving DecidableEq, Repr

/-- `KlarnaSessionRequest` (transformers.rs lines 62-70). -/
structure KlarnaSessionRequest where
  intent : KlarnaSessionIntent
  purchase_country : String
  purchase_currency : Currency
  locale : String
  order_amount : Int
  order_lines : List OrderLines
  deriving DecidableEq, Repr

/-- `KlarnaSessionResponse` (transformers.rs lines 72-76). -/
structure KlarnaSessionResponse where
  client_token : String
  session_id : String
  deriving DecidableEq, Repr

/-- `types::PaymentsSessionResponseRouterData<KlarnaSessionResponse>`
(outside the slice): wire response plus the original request context. -/
structure PaymentsSessionResponseRouterData where
  response : KlarnaSessionResponse
  data : PaymentsSessionRouterData
  http_code : Nat
  deriving Repr

/-- `types::PaymentsResponseRouterData<KlarnaPaymentsResponse>` (outside
the slice): wire response plus the original request context. -/
structure PaymentsResponseRouterData where
  response : KlarnaPaymentsResponse
  data : PaymentsAuthorizeRouterData
  http_code : Nat
  deriving Repr

/-- The order-line mapping closure appearing verbatim in both request
transformers (transformers.rs lines 91-96 and 144-149): copy name, quantity
and unit price, recompute `total_amount = i64::from(quantity) * amount`. -/
def toOrderLines (data : OrderDetailsWithAmount) : OrderLines :=
  { name := data.product_name
    quantity := data.quantity
    unit_price := data.amount
    total_amount := (data.quantity : Int) * data.amount }

/-- `impl TryFrom<&types::PaymentsSessionRouterData> for KlarnaSessionRequest`
(transformers.rs lines 78-104). -/
def KlarnaSessionRequest.tryFrom (item : PaymentsSessionRouterData) :
    Except ConnectorError KlarnaSessionRequest :=
  match item.request.order_details with
  | some order_details =>
      .ok { intent := .Buy
            purchase_country := "US"
            purchase_currency := item.request.currency
            order_amount := item.request.amount
            locale := "en-US"
            order_lines := order_details.map toOrderLines }
  | none => .error (.MissingRequiredField "product_name")

/-- `impl TryFrom<types::PaymentsSessionResponseRouterData<KlarnaSessionResponse>>
for types::PaymentsSessionRouterData` (transformers.rs lines 106-126):
replace the response slot of the original context with the Klarna-tagged
session token, keep the rest (`..item.data`). -/
def sessionResponseTryFrom (item : PaymentsSessionResponseRouterData) :
    Except ConnectorError PaymentsSessionRouterData :=
  .ok { item.data with
        response := .ok (.SessionResponse (.Klarna
          { session_token := item.response.client_token
            session_id := item.response.session_id })) }

/-- `impl TryFrom<&KlarnaRouterData<&types::PaymentsAuthorizeRouterData>>
for KlarnaPaymentsRequest` (transformers.rs lines 128-157).  Source line
135 computes the reference id as `item.response.reference.unwrap_or_default()`,
but the wrapper type has no `response` field (its reference field is
`connector_request_reference_id`); the evident intent — the wrapper
reference id — is used here.  No theorem below depends on the value of
this field. -/
def KlarnaPaymentsRequest.tryFrom
    (item : KlarnaRouterData PaymentsAuthorizeRouterData) :
    Except ConnectorError KlarnaPaymentsRequest :=
  match item.router_data.request.order_details with
  | some order_details =>
      .ok { purchase_country := "US"
            purchase_currency := item.router_data.request.currency
            connector_request_reference_id := item.connector_request_reference_id
            order_amount := item.router_data.request.amount
            order_lines := order_details.map toOrderLines }
  | none => .error (.MissingRequiredField "product_name")

/-- `impl TryFrom<types::PaymentsResponseRouterData<KlarnaPaymentsResponse>>
for types::PaymentsAuthorizeRouterData` (transformers.rs lines 159-181). -/
def paymentsResponseTryFrom (item : PaymentsResponseRouterData) :
    Except ConnectorError PaymentsAuthorizeRouterData :=
  .ok { item.data with
        response := .ok (.TransactionResponse
          (.ConnectorTransactionId item.response.order_id)
          none none none none
          (some item.response.connector_request_reference_id))
        status := item.response.fraud_status.toAttemptStatus }

end Klarna

namespace Klarna

/-- Claim C1: the gateway-status → canonical-status mapper is a total function on
the gateway's vocabulary (every variant has exactly one image), and it maps
`Accepted` to `Charged` and `Pending` to `Authorizing`. -/
theorem status_mapper_total_C1 :
    KlarnaFraudStatus.toAttemptStatus .Accepted = .Charged ∧
    KlarnaFraudStatus.toAttemptStatus .Pending = .Authorizing ∧
    ∀ s : KlarnaFraudStatus, ∃! c : AttemptStatus,
      KlarnaFraudStatus.toAttemptStatus s = c := by
  refine ⟨rfl, rfl, fun s => ⟨KlarnaFraudStatus.toAttemptStatus s, rfl, ?_⟩⟩
  intro c hc
  exact hc.symm

/-- Concrete sample data (the spec example: one line, quantity 2, unit
price 500, order amount 1000, USD). -/
def sampleLines : List OrderDetailsWithAmount :=
  [{ product_name := "Widget", quantity := 2, amount := 500 }]

def sampleSessionData : PaymentsSessionData :=
  { amount := 1000, currency := .USD, order_details := some sampleLines }

def sampleSessionDataNone : PaymentsSessionData :=
  { amount := 1000, currency := .USD, order_details := none }

def sampleAuthData : PaymentsAuthorizeData :=
  { amount := 1000, currency := .USD, order_details := some sampleLines }

def sampleAuthDataNone : PaymentsAuthorizeData :=
  { amount := 1000, currency := .USD, order_details := none }

def sampleSession : PaymentsSessionRouterData :=
  { payment_id := "pay_1", attempt_id := "pay_1_1",
    connector_request_reference_id := "ref_1", status := .Started,
    request := sampleSessionData,
    response := .error { code := "IR_00", message := "not yet called" } }

def sampleSessionNone : PaymentsSessionRouterData :=
  { sampleSession with request := sampleSessionDataNone }

def sampleAuthRouter : PaymentsAuthorizeRouterData :=
  { payment_id := "pay_1", attempt_id := "pay_1_1",
    connector_request_reference_id := "ref_1", status := .Started,
    request := sampleAuthData,
    response := .error { code := "IR_00", message := "not yet called" } }

def sampleAuth : KlarnaRouterData PaymentsAuthorizeRouterData :=
  { amount := 1000, connector_request_reference_id := "ref_1",
    router_data := sampleAuthRouter }

def sampleAuthNone : KlarnaRouterData PaymentsAuthorizeRouterData :=
  { sampleAuth with router_data := { sampleAuthRouter with request := sampleAuthDataNone } }

def sampleWireLine : OrderLines :=
  { name := "Widget", quantity := 2, unit_price := 500, total_amount := 1000 }

def sampleAuthWire : KlarnaPaymentsRequest :=
  { order_lines := [sampleWireLine], order_amount := 1000,
    purchase_country := "US", purchase_currency := .USD,
    connector_request_reference_id := "ref_1" }

def sampleSessionWire : KlarnaSessionRequest :=
  { intent := .Buy, purchase_country := "US", purchase_currency := .USD,
    locale := "en-US", order_amount := 1000, order_lines := [sampleWireLine] }

/-- Shape of any successful authorization wire request: order details were
present and the output is exactly the mapped record. -/
theorem klarnaPaymentsRequest_tryFrom_ok_shape
    (a : KlarnaRouterData PaymentsAuthorizeRouterData)
    (wr : KlarnaPaymentsRequest)
    (h : KlarnaPaymentsRequest.tryFrom a = .ok wr) :
    ∃ la, a.router_data.request.order_details = some la ∧
      wr = { purchase_country := "US",
             purchase_currency := a.router_data.request.currency,
             connector_request_reference_id := a.connector_request_reference_id,
             order_amount := a.router_data.request.amount,
             order_lines := la.map toOrderLines } := by
  unfold KlarnaPaymentsRequest.tryFrom at h
  cases hod : a.router_data.request.order_details with
  | none => rw [hod] at h; exact Except.noConfusion h
  | some la =>
      rw [hod] at h
      injection h with h
      exact ⟨la, rfl, h.symm⟩

/-- Shape of any successful session wire request. -/
theorem klarnaSessionRequest_tryFrom_ok_shape
    (s : PaymentsSessionRouterData)
    (r : KlarnaSessionRequest)
    (h : KlarnaSessionRequest.tryFrom s = .ok r) :
    ∃ ls, s.request.order_details = some ls ∧
      r = { intent := .Buy,
            purchase_country := "US",
            purchase_currency := s.request.currency,
            locale := "en-US",
            order_amount := s.request.amount,
            order_lines := ls.map toOrderLines } := by
  unfold KlarnaSessionRequest.tryFrom at h
  cases hod : s.request.order_details with
  | none => rw [hod] at h; exact Except.noConfusion h
  | some ls =>
      rw [hod] at h
      injection h with h
      exact ⟨ls, rfl, h.symm⟩

/-- Claim C2: when the order line items are absent, the authorization
request transformer fails with `MissingRequiredField` naming
`product_name` (so no wire request is produced), and the session request
transformer fails with the same error on the same condition. -/
theorem missing_order_details_C2
    (a : KlarnaRouterData PaymentsAuthorizeRouterData)
    (s : PaymentsSessionRouterData)
    (ha : a.router_data.request.order_details = none)
    (hs : s.request.order_details = none) :
    KlarnaPaymentsRequest.tryFrom a
        = .error (.MissingRequiredField "product_name") ∧
    KlarnaSessionRequest.tryFrom s
        = .error (.MissingRequiredField "product_name") := by
  constructor
  · unfold KlarnaPaymentsRequest.tryFrom
    rw [ha]
  · unfold KlarnaSessionRequest.tryFrom
    rw [hs]

theorem missing_order_details_C2_witness :
    KlarnaPaymentsRequest.tryFrom sampleAuthNone
        = .error (.MissingRequiredField "product_name") ∧
    KlarnaSessionRequest.tryFrom sampleSessionNone
        = .error (.MissingRequiredField "product_name") :=
  missing_order_details_C2 sampleAuthNone sampleSessionNone rfl rfl

/-- Claim C3: with order line items present, both request transformers
succeed and map the lines 1:1 in order — same count; name, quantity and
unit price copied — and every produced line has
`total_amount = quantity × unit_price`, recomputed from the copied fields
(the canonical line item carries no caller-supplied total to trust). -/
theorem order_lines_mapping_C3
    (a : KlarnaRouterData PaymentsAuthorizeRouterData)
    (s : PaymentsSessionRouterData)
    (la ls : List OrderDetailsWithAmount)
    (wa : KlarnaPaymentsRequest) (ws : KlarnaSessionRequest)
    (d e : OrderDetailsWithAmount) (i j : Nat)
    (ha : a.router_data.request.order_details = some la)
    (hs : s.request.order_details = some ls)
    (hwa : KlarnaPaymentsRequest.tryFrom a = .ok wa)
    (hws : KlarnaSessionRequest.tryFrom s = .ok ws)
    (hd : la[i]? = some d) (he : ls[j]? = some e) :
    wa.order_lines.length = la.length ∧
    ws.order_lines.length = ls.length ∧
    wa.order_lines[i]? = some { name := d.product_name,
                                quantity := d.quantity,
                                unit_price := d.amount,
                                total_amount := (d.quantity : Int) * d.amount } ∧
    ws.order_lines[j]? = some { name := e.product_name,
                                quantity := e.quantity,
                                unit_price := e.amount,
                                total_amount := (e.quantity : Int) * e.amount } := by
  obtain ⟨la2, hla, rfl⟩ := klarnaPaymentsRequest_tryFrom_ok_shape a wa hwa
  obtain ⟨ls2, hls, rfl⟩ := klarnaSessionRequest_tryFrom_ok_shape s ws hws
  rw [ha] at hla
  rw [hs] at hls
  injection hla with hla
  injection hls with hls
  subst hla
  subst hls
  refine ⟨List.length_map _ _, List.length_map _ _, ?_, ?_⟩
  · simp [List.getElem?_map, hd, toOrderLines]
  · simp [List.getElem?_map, he, toOrderLines]

theorem order_lines_mapping_C3_witness :
    sampleAuthWire.order_lines.length = sampleLines.length ∧
    sampleSessionWire.order_lines.length = sampleLines.length ∧
    sampleAuthWire.order_lines[0]? =
      some { name := "Widget", quantity := 2, unit_price := 500,
             total_amount := ((2 : Nat) : Int) * 500 } ∧
    sampleSessionWire.order_lines[0]? =
      some { name := "Widget", quantity := 2, unit_price := 500,
             total_amount := ((2 : Nat) : Int) * 500 } :=
  order_lines_mapping_C3 sampleAuth sampleSession sampleLines sampleLines
    sampleAuthWire sampleSessionWire
    { product_name := "Widget", quantity := 2, amount := 500 }
    { product_name := "Widget", quantity := 2, amount := 500 }
    0 0 rfl rfl rfl rfl rfl rfl

/-- Claim C4: the authorization response transformer always succeeds on a
deserialized wire response; the canonical response copies the transaction
id from the gateway `order_id`, sets the status to the status mapper
applied to the gateway `fraud_status`, fills
`connector_response_reference_id` with `Some` of the echoed reference id,
and sets `redirection_data`, `mandate_reference`, `connector_metadata` and
`network_txn_id` to `None`. -/
theorem auth_response_mapping_C4 (item : PaymentsResponseRouterData) :
    ∃ r, paymentsResponseTryFrom item = .ok r ∧
      r.response = .ok (.TransactionResponse
          (.ConnectorTransactionId item.response.order_id)
          none none none none
          (some item.response.connector_request_reference_id)) ∧
      r.status = item.response.fraud_status.toAttemptStatus :=
  ⟨_, rfl, rfl, rfl⟩

/-- Claim C5: the auth extractor succeeds exactly on the `HeaderKey`
credential variant, returning the contained api key unchanged as the basic
token, and fails with `FailedToObtainAuthType` on every other variant. -/
theorem auth_extractor_C5 (a : ConnectorAuthType) (k : String)
    (hnot : ∀ api_key, a ≠ ConnectorAuthType.HeaderKey api_key) :
    KlarnaAuthType.tryFrom (.HeaderKey k) = .ok { basic_token := k } ∧
    KlarnaAuthType.tryFrom a = .error .FailedToObtainAuthType := by
  refine ⟨rfl, ?_⟩
  cases a with
  | HeaderKey api_key => exact absurd rfl (hnot api_key)
  | BodyKey _ _ => rfl
  | SignatureKey _ _ _ => rfl
  | MultiAuthKey _ _ _ _ => rfl
  | NoKey => rfl

theorem auth_extractor_C5_witness :
    KlarnaAuthType.tryFrom (.HeaderKey "klarna_api_key")
        = .ok { basic_token := "klarna_api_key" } ∧
    KlarnaAuthType.tryFrom (.BodyKey "klarna_api_key" "k1")
        = .error .FailedToObtainAuthType :=
  auth_extractor_C5 (.BodyKey "klarna_api_key" "k1") "klarna_api_key"
    (fun _ h => ConnectorAuthType.noConfusion h)

/-- Claim C6 (spec-intent form): the normalizer constructor, as the spec
describes it, never fails and pairs the amount, the reference id and the
embedded canonical router data from the input tuple.  The theorem is about
`KlarnaRouterData.tryFrom`, which is modelled from the spec because the
source impl (transformers.rs lines 18-44) leaves the fifth tuple component
unbound and therefore does not itself denote a function. -/
theorem normalizer_pairs_C6 (cu : CurrencyUnit) (c : Currency) (amount : Int)
    (rd : PaymentsAuthorizeRouterData) (ref : String) :
    KlarnaRouterData.tryFrom cu c amount rd ref =
      .ok { amount := amount, connector_request_reference_id := ref,
            router_data := rd } :=
  rfl

/-- Claim C7: the declared default of the gateway fraud-status enum is
`Pending`, the mapper sends the default to `Authorizing` (not a success
state), and the only variant whose image is a success state is `Accepted`,
via the explicit `Accepted → Charged` arm. -/
theorem conservative_default_C7 :
    KlarnaFraudStatus.default = .Pending ∧
    KlarnaFraudStatus.default.toAttemptStatus = .Authorizing ∧
    AttemptStatus.isSuccess KlarnaFraudStatus.default.toAttemptStatus = false ∧
    ∀ s : KlarnaFraudStatus,
      AttemptStatus.isSuccess s.toAttemptStatus = true ↔
        s = .Accepted ∧ s.toAttemptStatus = .Charged := by
  refine ⟨rfl, rfl, rfl, fun s => ?_⟩
  cases s <;> simp [KlarnaFraudStatus.toAttemptStatus, AttemptStatus.isSuccess]

/-- Claim C8: the session response transformer replaces only the response
slot of the original request context — filling it with the Klarna-tagged
session token built from the wire `client_token` and `session_id` — and
every other field of the original context is unchanged. -/
theorem session_response_frame_C8 (item : PaymentsSessionResponseRouterData) :
    ∃ r, sessionResponseTryFrom item = .ok r ∧
      r.response = .ok (.SessionResponse (.Klarna
          { session_token := item.response.client_token
            session_id := item.response.session_id })) ∧
      r.payment_id = item.data.payment_id ∧
      r.attempt_id = item.data.attempt_id ∧
      r.connector_request_reference_id
          = item.data.connector_request_reference_id ∧
      r.status = item.data.status ∧
      r.request = item.data.request :=
  ⟨_, rfl, rfl, rfl, rfl, rfl, rfl, rfl⟩

/-- Claim C9: the authorization request transformer is deterministic —
equal inputs yield equal outputs, the result being a pure function of the
input value alone — and every successful wire request has the hardcoded
`purchase_country` constant and the currency copied from the request. -/
theorem auth_request_deterministic_C9
    (a b : KlarnaRouterData PaymentsAuthorizeRouterData)
    (wr : KlarnaPaymentsRequest)
    (hab : a = b)
    (h : KlarnaPaymentsRequest.tryFrom a = .ok wr) :
    KlarnaPaymentsRequest.tryFrom b = .ok wr ∧
    wr.purchase_country = "US" ∧
    wr.purchase_currency = b.router_data.request.currency := by
  subst hab
  obtain ⟨la, hla, rfl⟩ := klarnaPaymentsRequest_tryFrom_ok_shape a wr h
  exact ⟨h, rfl, rfl⟩

theorem auth_request_deterministic_C9_witness :
    KlarnaPaymentsRequest.tryFrom sampleAuth = .ok sampleAuthWire ∧
    sampleAuthWire.purchase_country = "US" ∧
    sampleAuthWire.purchase_currency = sampleAuth.router_data.request.currency :=
  auth_request_deterministic_C9 sampleAuth sampleAuth sampleAuthWire rfl rfl

/-- Claim C10: every session payload this adapter produces carries the
`Buy` intent; the `Tokenize` and `BuyAndTokenize` variants are never
produced (the session transformer is the only operation that builds an
intent). -/
theorem session_intent_buy_C10 (s : PaymentsSessionRouterData)
    (r : KlarnaSessionRequest)
    (h : KlarnaSessionRequest.tryFrom s = .ok r) :
    r.intent = .Buy := by
  obtain ⟨ls, hls, rfl⟩ := klarnaSessionRequest_tryFrom_ok_shape s r h
  rfl

theorem session_intent_buy_C10_witness :
    sampleSessionWire.intent = .Buy :=
  session_intent_buy_C10 sampleSession sampleSessionWire rfl

end Klarna
